import Mathlib

/-!
Verification of the libosmium read-pipeline producer and the memory-mapping
core against their specification.

Part 1 embeds ReadThread::operator() (osmium/io/detail/read_thread.hpp).
The producer loop reads chunks from a Decompressor and pushes them onto a
shared queue until it sees the empty (sentinel) chunk, the shared done flag,
or an exception.  Part 2 embeds the Unix implementation of
osmium::util::MemoryMapping and its typed wrapper
(osmium/util/memory_mapping.hpp), with OS calls made explicit as a trace and
their outcomes supplied as oracle parameters.  Definitions come first,
followed by all theorems.
-/

namespace Osmium

/-- A chunk of decompressed bytes (std::string in the source).  The empty
string is the sentinel meaning end-of-data. -/
abbrev Chunk := String

/-- The outcome of one Decompressor::read() call: a returned chunk, or a
thrown exception. -/
inductive ReadResult where
  | chunk (s : Chunk)
  | err
deriving DecidableEq, Repr

/-- How a run of ReadThread::operator() ended. -/
inductive RunEnd where
  /-- the Decompressor returned the empty chunk and the loop broke -/
  | eof
  /-- the done flag was observed set at the top of the while loop -/
  | cancelled
  /-- an exception escaped the loop and was rethrown from the catch block -/
  | err
deriving DecidableEq, Repr

/-- Observable outcome of one producer run: the chunks pushed onto the queue
in order, the number of Decompressor::close() calls made, and how the run
ended. -/
structure RunResult where
  pushes : List Chunk
  closeCalls : Nat
  ended : RunEnd
deriving DecidableEq, Repr

/-- The while loop of ReadThread::operator().  A Decompressor is scripted as
the list of its successive read() results; once the script is exhausted,
read() returns the empty end-of-stream chunk.  The done flag is a function of
the iteration index (the consumer may set it between producer steps); it is
checked at the top of each iteration, exactly as the while condition does.
The inner backpressure wait (sleep while the queue holds more than 10 chunks)
performs no pushes and so does not affect the push sequence modelled here.
Returns the pushes made by the loop and the reason the loop ended. -/
def readLoop (done : Nat → Bool) (reads : List ReadResult) (i : Nat) :
    List Chunk × RunEnd :=
  if done i then ([], .cancelled)
  else
    match reads with
    | [] => ([""], .eof)
    | .err :: _ => ([], .err)
    | .chunk c :: rest =>
      if c = "" then ([c], .eof)
      else
        let r := readLoop done rest (i + 1)
        (c :: r.1, r.2)

/-- ReadThread::operator(): run the loop and call close() inside the try
block; on an exception, push the empty sentinel chunk and rethrow (close() is
not reached in that case).  close() itself is modelled as non-throwing. -/
def readThreadRun (reads : List ReadResult) (done : Nat → Bool) : RunResult :=
  let r := readLoop done reads 0
  match r.2 with
  | .err => { pushes := r.1 ++ [""], closeCalls := 0, ended := .err }
  | .eof => { pushes := r.1, closeCalls := 1, ended := .eof }
  | .cancelled => { pushes := r.1, closeCalls := 1, ended := .cancelled }

/-- Number of sentinel (empty) chunks in a push sequence. -/
def sentinelCount (ps : List Chunk) : Nat := ps.count ""

/-- Modelled from the spec: osmium::thread::Queue (osmium/thread/queue.hpp)
is not under src/; the spec describes it as a strict single-producer /
single-consumer FIFO, so the sequence of pops the consumer observes is
exactly the sequence of pushes, in order. -/
def consumerObserved (r : RunResult) : List Chunk := r.pushes

/-- MemoryMapping::mapping_mode. -/
inductive mapping_mode where
  | readonly
  | write_private
  | write_shared
deriving DecidableEq, Repr

/-- MAP_FAILED, the POSIX invalid-address marker: (void*)-1.  Addresses are
modelled as integers. -/
def MAP_FAILED : Int := -1

/-- The null pointer, for comparison against the invalid-address marker. -/
def nullptr : Int := 0

/-- PROT_READ (Linux numeric value; only the identity of the flag matters). -/
def PROT_READ : Nat := 1

/-- PROT_WRITE. -/
def PROT_WRITE : Nat := 2

/-- MAP_SHARED. -/
def MAP_SHARED : Nat := 1

/-- MAP_PRIVATE. -/
def MAP_PRIVATE : Nat := 2

/-- MAP_ANONYMOUS. -/
def MAP_ANONYMOUS : Nat := 32

/-- An OS call made by the mapping layer, recorded in a trace. -/
inductive OSCall where
  | mmapCall (size : Nat) (prot : Nat) (flags : Nat) (fd : Int) (offset : Nat)
  | munmapCall (addr : Int) (size : Nat)
  | mremapCall (oldSize : Nat) (newSize : Nat)
  | resizeFileCall (fd : Int) (newSize : Nat)
deriving DecidableEq, Repr

/-- A thrown C++ exception: std::system_error from a failed OS call, or a
failed assert (a precondition violation, fatal in debug builds). -/
inductive Err where
  | system_error (msg : String)
  | assertion_failure
deriving DecidableEq, Repr

/-- The MemoryMapping state: size, offset, file descriptor, mode and mapped
address (the Unix implementation has no extra handle member). -/
structure MemoryMapping where
  m_size : Nat
  m_offset : Nat
  m_fd : Int
  m_mapping_mode : mapping_mode
  m_addr : Int
deriving DecidableEq, Repr

/-- is_valid(): m_addr != MAP_FAILED. -/
def MemoryMapping.is_valid (m : MemoryMapping) : Bool :=
  m.m_addr != MAP_FAILED

/-- make_invalid(): set m_addr to MAP_FAILED. -/
def MemoryMapping.make_invalid (m : MemoryMapping) : MemoryMapping :=
  { m with m_addr := MAP_FAILED }

/-- get_protection(): PROT_READ for readonly, otherwise PROT_READ|PROT_WRITE. -/
def MemoryMapping.get_protection (m : MemoryMapping) : Nat :=
  if m.m_mapping_mode = .readonly then PROT_READ else PROT_READ ||| PROT_WRITE

/-- get_flags(): MAP_PRIVATE|MAP_ANONYMOUS for anonymous mappings, MAP_SHARED
for write_shared file mappings, MAP_PRIVATE otherwise. -/
def MemoryMapping.get_flags (m : MemoryMapping) : Nat :=
  if m.m_fd = -1 then MAP_PRIVATE ||| MAP_ANONYMOUS
  else if m.m_mapping_mode = .write_shared then MAP_SHARED
  else MAP_PRIVATE

/-- check_size(): a zero-size request is replaced by the page size.
osmium::get_pagesize() lives in osmium/util/file.hpp, which is not under
src/; the page size is supplied as a parameter. -/
def check_size (pagesize : Nat) (size : Nat) : Nat :=
  if size = 0 then pagesize else size

/-- resize_fd(): for an anonymous mapping (fd == -1) do nothing and return
-1; otherwise grow the backing file to m_size + m_offset when it is shorter.
osmium::file_size and osmium::resize_file (osmium/util/file.hpp) are not
under src/; the current file length is supplied as the fileSize parameter and
the grow is recorded as a resizeFileCall in the trace. -/
def resize_fd (msize moffset : Nat) (fd : Int) (fileSize : Nat) :
    Int × List OSCall :=
  if fd = -1 then (-1, [])
  else if fileSize < msize + moffset then (fd, [.resizeFileCall fd (msize + moffset)])
  else (fd, [])

/-- The MemoryMapping constructor (Unix): initializes m_size via check_size,
m_fd via resize_fd, calls mmap (the address it returned is the mmapRet oracle
parameter), then asserts that an anonymous mapping is not readonly, and
throws std::system_error when mmap returned MAP_FAILED.  Returns the
constructed object or the thrown exception, with the trace of OS calls. -/
def MemoryMapping.construct (pagesize : Nat) (size : Nat) (mode : mapping_mode)
    (fd : Int) (offset : Nat) (fileSize : Nat) (mmapRet : Int) :
    Except Err MemoryMapping × List OSCall :=
  let sz := check_size pagesize size
  let r := resize_fd sz offset fd fileSize
  let m : MemoryMapping :=
    { m_size := sz, m_offset := offset, m_fd := r.1, m_mapping_mode := mode,
      m_addr := mmapRet }
  let tr := r.2 ++ [OSCall.mmapCall sz m.get_protection m.get_flags r.1 offset]
  if fd = -1 ∧ mode = mapping_mode.readonly then (.error .assertion_failure, tr)
  else if m.is_valid then (.ok m, tr)
  else (.error (.system_error "mmap failed"), tr)

/-- unmap(): if valid, call munmap (its success is the munmapOk oracle) and
throw std::system_error on failure, else invalidate; if already invalid, do
nothing. -/
def MemoryMapping.unmap (m : MemoryMapping) (munmapOk : Bool) :
    Except Err MemoryMapping × List OSCall :=
  if m.is_valid then
    if munmapOk then (.ok m.make_invalid, [.munmapCall m.m_addr m.m_size])
    else (.error (.system_error "munmap failed"), [.munmapCall m.m_addr m.m_size])
  else (.ok m, [])

/-- Move construction: copy all five members from the source, then mark the
source invalid.  No OS call is made.  Returns (new object, moved-from
source) and the (empty) OS-call trace. -/
def MemoryMapping.moveConstruct (other : MemoryMapping) :
    (MemoryMapping × MemoryMapping) × List OSCall :=
  (({ m_size := other.m_size, m_offset := other.m_offset, m_fd := other.m_fd,
      m_mapping_mode := other.m_mapping_mode, m_addr := other.m_addr },
    other.make_invalid), [])

/-- Move assignment: first release the destination's own mapping inside a
try/catch that ignores std::system_error, then copy all five members from
the source and mark the source invalid.  The function is total (operator= is
noexcept): an unmap failure is swallowed, never surfaced.  Returns
(new destination, moved-from source) and the OS-call trace of the release. -/
def MemoryMapping.moveAssign (dest other : MemoryMapping) (munmapOk : Bool) :
    (MemoryMapping × MemoryMapping) × List OSCall :=
  let tr := (dest.unmap munmapOk).2
  (({ m_size := other.m_size, m_offset := other.m_offset, m_fd := other.m_fd,
      m_mapping_mode := other.m_mapping_mode, m_addr := other.m_addr },
    other.make_invalid), tr)

/-- The destructor: unmap() inside a try/catch that discards
std::system_error.  Only the OS-call trace is observable; no failure can
escape. -/
def MemoryMapping.destruct (m : MemoryMapping) (munmapOk : Bool) : List OSCall :=
  (m.unmap munmapOk).2

/-- resize() (Unix).  isLinux selects the mremap branch for anonymous
mappings; mapRet is the address returned by mremap or by the remapping mmap;
munmapOk tells whether the munmap in the file-backed branch succeeds.  The
source asserts new_size > 0, and on non-Linux platforms asserts false for
anonymous mappings; both asserts are modelled as the assertion_failure
outcome with no OS call made. -/
def MemoryMapping.resize (isLinux : Bool) (m : MemoryMapping) (new_size : Nat)
    (fileSize : Nat) (mapRet : Int) (munmapOk : Bool) :
    Except Err MemoryMapping × List OSCall :=
  if new_size = 0 then (.error .assertion_failure, [])
  else if m.m_fd = -1 then
    if isLinux then
      let m2 : MemoryMapping := { m with m_addr := mapRet }
      if m2.is_valid then
        (.ok { m2 with m_size := new_size }, [.mremapCall m.m_size new_size])
      else (.error (.system_error "mremap failed"), [.mremapCall m.m_size new_size])
    else (.error .assertion_failure, [])
  else
    match m.unmap munmapOk with
    | (.error e, tr) => (.error e, tr)
    | (.ok m1, tr) =>
      let m2 : MemoryMapping := { m1 with m_size := new_size }
      let rfd := resize_fd new_size m.m_offset m.m_fd fileSize
      let m3 : MemoryMapping := { m2 with m_addr := mapRet }
      let tr3 := tr ++ rfd.2 ++
        [OSCall.mmapCall new_size m3.get_protection m3.get_flags m.m_fd m.m_offset]
      if m3.is_valid then (.ok m3, tr3)
      else (.error (.system_error "mmap failed"), tr3)

/-- size(): the number of bytes mapped, as requested at creation. -/
def MemoryMapping.size (m : MemoryMapping) : Nat := m.m_size

/-- fd(): the file descriptor, -1 for anonymous mappings. -/
def MemoryMapping.fd (m : MemoryMapping) : Int := m.m_fd

/-- writable(): true unless the mode is readonly. -/
def MemoryMapping.writable (m : MemoryMapping) : Bool :=
  m.m_mapping_mode != .readonly

/-- get_addr(): returns m_addr unconditionally (the precondition is
is_valid(), but the function itself just casts and returns the member). -/
def MemoryMapping.get_addr (m : MemoryMapping) : Int := m.m_addr

/-- operator bool(): is_valid(). -/
def MemoryMapping.toBool (m : MemoryMapping) : Bool := m.is_valid

/-- AnonymousMemoryMapping's constructor:
MemoryMapping(size, mapping_mode::write_private). -/
def AnonymousMemoryMapping.construct (pagesize : Nat) (size : Nat)
    (mmapRet : Int) : Except Err MemoryMapping × List OSCall :=
  MemoryMapping.construct pagesize size .write_private (-1) 0 0 mmapRet

/-- Whether AnonymousMemoryMapping and AnonymousTypedMemoryMapping declare a
usable resize member: when __linux__ is not defined the member is declared
deleted, so calling it is rejected at compile time. -/
def anonymousResizeDeclared (isLinux : Bool) : Bool := isLinux

/-- TypedMemoryMapping of T: the element size sizeof(T) and the wrapped
MemoryMapping. -/
structure TypedMemoryMapping where
  sizeofT : Nat
  m_mapping : MemoryMapping
deriving DecidableEq, Repr

/-- The anonymous TypedMemoryMapping constructor:
m_mapping(sizeof(T) * size, mapping_mode::write_private). -/
def TypedMemoryMapping.constructAnon (sizeofT : Nat) (pagesize : Nat)
    (count : Nat) (mmapRet : Int) :
    Except Err TypedMemoryMapping × List OSCall :=
  let r := MemoryMapping.construct pagesize (sizeofT * count) .write_private
    (-1) 0 0 mmapRet
  (r.1.map (fun m => ⟨sizeofT, m⟩), r.2)

/-- The file-backed TypedMemoryMapping constructor:
m_mapping(sizeof(T) * size, mode, fd, sizeof(T) * offset). -/
def TypedMemoryMapping.constructFile (sizeofT : Nat) (pagesize : Nat)
    (count : Nat) (mode : mapping_mode) (fd : Int) (offset : Nat)
    (fileSize : Nat) (mmapRet : Int) :
    Except Err TypedMemoryMapping × List OSCall :=
  let r := MemoryMapping.construct pagesize (sizeofT * count) mode fd
    (sizeofT * offset) fileSize mmapRet
  (r.1.map (fun m => ⟨sizeofT, m⟩), r.2)

/-- TypedMemoryMapping::size(): asserts m_mapping.size() % sizeof(T) == 0 and
returns m_mapping.size() / sizeof(T); the failed assert is modelled as the
assertion_failure outcome. -/
def TypedMemoryMapping.size (t : TypedMemoryMapping) : Except Err Nat :=
  if t.m_mapping.m_size % t.sizeofT = 0 then .ok (t.m_mapping.m_size / t.sizeofT)
  else .error .assertion_failure

/-- The invariant asserted by TypedMemoryMapping::size(): the underlying byte
size is an exact multiple of sizeof(T). -/
def TypedMemoryMapping.sizeInvariant (t : TypedMemoryMapping) : Prop :=
  t.m_mapping.m_size % t.sizeofT = 0

/-! Theorems.  First the unfolding equations for readLoop, then the claims. -/

theorem readLoop_done {done : Nat → Bool} {i : Nat} (reads : List ReadResult)
    (h : done i = true) : readLoop done reads i = ([], .cancelled) := by
  rw [readLoop.eq_def, if_pos h]

theorem readLoop_nil {done : Nat → Bool} {i : Nat} (h : done i = false) :
    readLoop done [] i = ([""], .eof) := by
  rw [readLoop, if_neg (by simp [h])]

theorem readLoop_err {done : Nat → Bool} {i : Nat} (rest : List ReadResult)
    (h : done i = false) : readLoop done (.err :: rest) i = ([], .err) := by
  rw [readLoop, if_neg (by simp [h])]

theorem readLoop_eos {done : Nat → Bool} {i : Nat} (rest : List ReadResult)
    (h : done i = false) : readLoop done (.chunk "" :: rest) i = ([""], .eof) := by
  rw [readLoop, if_neg (by simp [h])]
  simp

theorem readLoop_chunk {done : Nat → Bool} {i : Nat} {c : Chunk}
    (rest : List ReadResult) (h : done i = false) (hc : c ≠ "") :
    readLoop done (.chunk c :: rest) i =
      (c :: (readLoop done rest (i + 1)).1, (readLoop done rest (i + 1)).2) := by
  rw [readLoop, if_neg (by simp [h])]
  simp [hc]

/-- The loop never pushes a sentinel except as its final end-of-stream push:
if the loop ends with eof the pushes are some sentinel-free list followed by
one sentinel, and otherwise the pushes contain no sentinel at all. -/
theorem readLoop_sentinel (done : Nat → Bool) (reads : List ReadResult) (i : Nat) :
    ((readLoop done reads i).2 = .eof →
      ∃ ps, (readLoop done reads i).1 = ps ++ [""] ∧ "" ∉ ps) ∧
    ((readLoop done reads i).2 ≠ .eof → "" ∉ (readLoop done reads i).1) := by
  induction reads generalizing i with
  | nil =>
    cases hd : done i with
    | true => rw [readLoop_done [] hd]; simp
    | false =>
      rw [readLoop_nil hd]
      exact ⟨fun _ => ⟨[], by simp⟩, fun h2 => absurd rfl h2⟩
  | cons r rest ih =>
    cases hd : done i with
    | true => rw [readLoop_done (r :: rest) hd]; simp
    | false =>
      cases r with
      | err => rw [readLoop_err rest hd]; simp
      | chunk c =>
        by_cases hc : c = ""
        · subst hc
          rw [readLoop_eos rest hd]
          exact ⟨fun _ => ⟨[], by simp⟩, fun h2 => absurd rfl h2⟩
        · rw [readLoop_chunk rest hd hc]
          obtain ⟨h1, h2⟩ := ih (i + 1)
          constructor
          · intro he
            obtain ⟨ps, hps, hmem⟩ := h1 he
            refine ⟨c :: ps, by simp [hps], ?_⟩
            simp only [List.mem_cons, not_or]
            exact ⟨Ne.symm hc, hmem⟩
          · intro hne
            have hm := h2 hne
            simp only [List.mem_cons, not_or]
            exact ⟨Ne.symm hc, hm⟩

/-- C1 counterexample: with the Decompressor scripted to yield "a", "b", "c"
and then end-of-stream, and the done flag set after the first iteration
(cancellation mid-stream), the run ends by cancellation and the sentinel is
never pushed — the producer exits without pushing the empty chunk. -/
theorem readThread_cancel_no_sentinel :
    (readThreadRun [.chunk "a", .chunk "b", .chunk "c", .chunk ""]
        (fun i => decide (1 ≤ i))).ended = .cancelled ∧
    sentinelCount (readThreadRun [.chunk "a", .chunk "b", .chunk "c", .chunk ""]
        (fun i => decide (1 ≤ i))).pushes = 0 := by
  constructor <;> rfl

/-- C1 amended: the sentinel is pushed exactly once, as the final push, when
the run ends by genuine end-of-stream or by an exception from the
Decompressor; but when the run ends because the cancellation flag was
observed set, no sentinel is pushed at all. -/
theorem readThread_sentinel_exactly_once (reads : List ReadResult) (done : Nat → Bool) :
    ((readThreadRun reads done).ended ≠ .cancelled →
      sentinelCount (readThreadRun reads done).pushes = 1 ∧
      ∃ ps, (readThreadRun reads done).pushes = ps ++ [""] ∧ "" ∉ ps) ∧
    ((readThreadRun reads done).ended = .cancelled →
      sentinelCount (readThreadRun reads done).pushes = 0) := by
  have hs := readLoop_sentinel done reads 0
  rcases hloop : readLoop done reads 0 with ⟨ps, e⟩
  rw [hloop] at hs
  simp only [readThreadRun, hloop]
  match e with
  | .err =>
    simp only at hs ⊢
    have hmem : "" ∉ ps := hs.2 (by simp)
    refine ⟨fun _ => ⟨?_, ps, rfl, hmem⟩, fun h => by simp at h⟩
    simp [sentinelCount, List.count_append, List.count_eq_zero.mpr hmem]
  | .eof =>
    simp only at hs ⊢
    obtain ⟨ps', hps', hmem⟩ := hs.1 (by simp)
    refine ⟨fun _ => ⟨?_, ps', hps', hmem⟩, fun h => by simp at h⟩
    simp [sentinelCount, hps', List.count_append, List.count_eq_zero.mpr hmem]
  | .cancelled =>
    simp only at hs ⊢
    have hmem : "" ∉ ps := hs.2 (by simp)
    refine ⟨fun h => absurd rfl h, fun _ => ?_⟩
    simp [sentinelCount, List.count_eq_zero.mpr hmem]

/-- Witness for the amended C1 theorem at a concrete end-of-stream run. -/
theorem readThread_sentinel_exactly_once_witness :
    sentinelCount (readThreadRun [.chunk "a", .chunk ""] (fun _ => false)).pushes = 1 :=
  ((readThread_sentinel_exactly_once [.chunk "a", .chunk ""] (fun _ => false)).1
    (by decide)).1

/-- C2 counterexample: with a Decompressor whose first read() throws, the run
ends by the exception and Decompressor::close() is never called (the close()
call sits inside the try block, after the loop, and is skipped when control
transfers to the catch block). -/
theorem readThread_err_skips_close :
    (readThreadRun [.err] (fun _ => false)).closeCalls = 0 ∧
    (readThreadRun [.err] (fun _ => false)).ended = .err := by
  constructor <;> rfl

/-- C2 amended: Decompressor::close() is called exactly once when the loop
exits normally (end-of-stream or cancellation); when an exception escapes the
loop, close() is not called at all. -/
theorem readThread_close_on_normal_exit (reads : List ReadResult) (done : Nat → Bool) :
    ((readThreadRun reads done).ended ≠ .err →
      (readThreadRun reads done).closeCalls = 1) ∧
    ((readThreadRun reads done).ended = .err →
      (readThreadRun reads done).closeCalls = 0) := by
  rcases hloop : readLoop done reads 0 with ⟨ps, e⟩
  simp only [readThreadRun, hloop]
  match e with
  | .err => exact ⟨fun h => absurd rfl h, fun _ => rfl⟩
  | .eof => exact ⟨fun _ => rfl, fun h => by simp at h⟩
  | .cancelled => exact ⟨fun _ => rfl, fun h => by simp at h⟩

/-- Witness for the amended C2 theorem at a concrete end-of-stream run. -/
theorem readThread_close_on_normal_exit_witness :
    (readThreadRun [.chunk ""] (fun _ => false)).closeCalls = 1 :=
  (readThread_close_on_normal_exit [.chunk ""] (fun _ => false)).1 (by decide)

/-- Helper for C3: with the done flag never set and a script of non-empty
chunks followed by end-of-stream, the loop pushes exactly those chunks in
order followed by the sentinel, and ends with eof. -/
theorem readLoop_in_order (cs : List Chunk) (i : Nat) (h : ∀ c ∈ cs, c ≠ "") :
    readLoop (fun _ => false) (cs.map .chunk ++ [.chunk ""]) i = (cs ++ [""], .eof) := by
  induction cs generalizing i with
  | nil => simpa using readLoop_eos [] rfl
  | cons c rest ih =>
    have hc : c ≠ "" := h c (by simp)
    have hrest : ∀ x ∈ rest, x ≠ "" := fun x hx => h x (by simp [hx])
    rw [List.map_cons, List.cons_append, readLoop_chunk _ rfl hc, ih (i + 1) hrest]
    rfl

/-- C3: for every finite sequence of non-empty chunks produced by the
Decompressor followed by the empty end-of-stream chunk, the consumer observes
exactly those chunks in the order produced, then the sentinel, and nothing
after the sentinel (the sentinel is the last observation). -/
theorem readThread_fifo_order (cs : List Chunk) (h : ∀ c ∈ cs, c ≠ "") :
    consumerObserved (readThreadRun (cs.map .chunk ++ [.chunk ""]) (fun _ => false))
      = cs ++ [""] ∧
    (readThreadRun (cs.map .chunk ++ [.chunk ""]) (fun _ => false)).ended = .eof := by
  simp [consumerObserved, readThreadRun, readLoop_in_order cs 0 h]

/-- Witness for C3 at the spec's own example, the chunk sequence
"a", "b", "c" then end-of-stream. -/
theorem readThread_fifo_order_witness :
    consumerObserved (readThreadRun
        ([.chunk "a", .chunk "b", .chunk "c"] ++ [.chunk ""]) (fun _ => false))
      = ["a", "b", "c", ""] := by
  have := readThread_fifo_order ["a", "b", "c"] (by decide)
  simpa using this.1

/-- C4 counterexample: a successful anonymous create of 1 byte (pagesize
4096, write_shared, mmap returning address 1024) reports size() == 1, not
max(1, pagesize) == 4096. -/
theorem create_small_size_not_rounded :
    (MemoryMapping.construct 4096 1 .write_shared (-1) 0 0 1024).1 =
      .ok { m_size := 1, m_offset := 0, m_fd := -1,
            m_mapping_mode := .write_shared, m_addr := 1024 } ∧
    (1 : Nat) ≠ max 1 4096 := by
  exact ⟨rfl, by decide⟩

/-- C4 amended: a successful anonymous create (fd == -1) with a writable mode
reports size() equal to the requested size when it is nonzero, and equal to
the page size when the request was zero; the page-size rounding of nonzero
requests happens inside the OS, not in the reported size. -/
theorem create_anon_size (pagesize s : Nat) (mode : mapping_mode) (mmapRet : Int)
    (hmode : mode ≠ .readonly) (hok : mmapRet ≠ MAP_FAILED) :
    ∃ m, (MemoryMapping.construct pagesize s mode (-1) 0 0 mmapRet).1 = .ok m ∧
      m.size = (if s = 0 then pagesize else s) ∧ m.is_valid = true := by
  refine ⟨{ m_size := check_size pagesize s, m_offset := 0, m_fd := -1,
            m_mapping_mode := mode, m_addr := mmapRet }, ?_, ?_, ?_⟩
  · simp [MemoryMapping.construct, resize_fd, MemoryMapping.is_valid, hmode, hok]
  · simp [MemoryMapping.size, check_size]
  · simp [MemoryMapping.is_valid, hok]

/-- Witness for the amended C4 theorem at pagesize 4096, size 1. -/
theorem create_anon_size_witness :
    ∃ m, (MemoryMapping.construct 4096 1 .write_shared (-1) 0 0 1024).1 = .ok m ∧
      m.size = (if (1 : Nat) = 0 then 4096 else 1) ∧ m.is_valid = true :=
  create_anon_size 4096 1 .write_shared 1024 (by decide) (by decide)

/-- C5: move construction transfers size/offset/descriptor/mode/address to
the new object and invalidates the source, making no OS call at all; move
assignment does the same transfer, and the only OS call it can make is the
munmap releasing the mapping previously owned by the destination — never a
call on the source. -/
theorem move_transfers_and_invalidates (m dest : MemoryMapping) (munmapOk : Bool)
    (h : m.is_valid = true) :
    ((MemoryMapping.moveConstruct m).1.1 = m ∧
     (MemoryMapping.moveConstruct m).1.2.is_valid = false ∧
     (MemoryMapping.moveConstruct m).2 = []) ∧
    ((MemoryMapping.moveAssign dest m munmapOk).1.1 = m ∧
     (MemoryMapping.moveAssign dest m munmapOk).1.2.is_valid = false ∧
     ∀ c ∈ (MemoryMapping.moveAssign dest m munmapOk).2,
       c = OSCall.munmapCall dest.m_addr dest.m_size) := by
  refine ⟨⟨rfl, ?_, rfl⟩, rfl, ?_, ?_⟩
  · simp [MemoryMapping.moveConstruct, MemoryMapping.make_invalid,
      MemoryMapping.is_valid]
  · simp [MemoryMapping.moveAssign, MemoryMapping.make_invalid,
      MemoryMapping.is_valid]
  · intro c hc
    simp only [MemoryMapping.moveAssign, MemoryMapping.unmap] at hc
    by_cases hv : dest.is_valid
    · by_cases hok : munmapOk <;> simp [hv, hok] at hc <;> exact hc
    · simp [hv] at hc

/-- Witness for the C5 theorem at concrete source and destination mappings. -/
theorem move_transfers_and_invalidates_witness :
    (MemoryMapping.moveConstruct
        { m_size := 10, m_offset := 0, m_fd := -1,
          m_mapping_mode := .write_private, m_addr := 2048 }).1.2.is_valid = false :=
  ((move_transfers_and_invalidates
      { m_size := 10, m_offset := 0, m_fd := -1,
        m_mapping_mode := .write_private, m_addr := 2048 }
      { m_size := 20, m_offset := 0, m_fd := 3,
        m_mapping_mode := .readonly, m_addr := 8192 } true (by decide)).1).2.1

/-- C6: on a valid region, a successful unmap() makes exactly one munmap call
and leaves the region invalid; a second unmap() on the now-invalid region
returns it unchanged with no OS call, and in general unmap() on any invalid
region is a no-op. -/
theorem unmap_idempotent (m : MemoryMapping) (h : m.is_valid = true) :
    (m.unmap true).1 = .ok m.make_invalid ∧
    (m.unmap true).2 = [OSCall.munmapCall m.m_addr m.m_size] ∧
    m.make_invalid.is_valid = false ∧
    (∀ m2 : MemoryMapping, m2.is_valid = false →
      ∀ ok2, m2.unmap ok2 = (.ok m2, [])) := by
  refine ⟨?_, ?_, ?_, ?_⟩
  · simp [MemoryMapping.unmap, h]
  · simp [MemoryMapping.unmap, h]
  · simp [MemoryMapping.make_invalid, MemoryMapping.is_valid]
  · intro m2 h2 ok2
    simp [MemoryMapping.unmap, h2]

/-- Witness for the C6 theorem at a concrete valid mapping. -/
theorem unmap_idempotent_witness :
    (MemoryMapping.unmap
        { m_size := 4096, m_offset := 0, m_fd := -1,
          m_mapping_mode := .write_private, m_addr := 4096 } true).2 =
      [OSCall.munmapCall 4096 4096] :=
  (unmap_idempotent
      { m_size := 4096, m_offset := 0, m_fd := -1,
        m_mapping_mode := .write_private, m_addr := 4096 } (by decide)).2.1

/-- C7 counterexample: on a destination that owns a mapping, with the
internal munmap failing (explicit unmap() on the same state throws
std::system_error), move assignment nevertheless completes normally: it
performs the failing munmap call, transfers the source's members, and
surfaces no failure to its caller — the failure is swallowed, exactly as in
the destructor path. -/
theorem moveAssign_swallows_unmap_error :
    (MemoryMapping.unmap
        { m_size := 4096, m_offset := 0, m_fd := -1,
          m_mapping_mode := .write_private, m_addr := 4096 } false).1 =
      .error (.system_error "munmap failed") ∧
    MemoryMapping.moveAssign
        { m_size := 4096, m_offset := 0, m_fd := -1,
          m_mapping_mode := .write_private, m_addr := 4096 }
        { m_size := 8192, m_offset := 0, m_fd := 5,
          m_mapping_mode := .write_shared, m_addr := 12288 } false =
      (({ m_size := 8192, m_offset := 0, m_fd := 5,
          m_mapping_mode := .write_shared, m_addr := 12288 },
        { m_size := 8192, m_offset := 0, m_fd := 5,
          m_mapping_mode := .write_shared, m_addr := MAP_FAILED }),
       [OSCall.munmapCall 4096 4096]) := by
  exact ⟨rfl, rfl⟩

/-- C7 amended: OS-level unmap failures are discarded on two automatic-release
paths — the destructor and move-assignment's internal release, both of which
wrap unmap() in a try/catch that ignores std::system_error — while the
explicit unmap() call propagates the failure to its caller. -/
theorem unmap_error_propagation (d s : MemoryMapping) (h : d.is_valid = true) :
    (d.unmap false).1 = .error (.system_error "munmap failed") ∧
    MemoryMapping.destruct d false = [OSCall.munmapCall d.m_addr d.m_size] ∧
    (MemoryMapping.moveAssign d s false).1.1 = s ∧
    (MemoryMapping.moveAssign d s false).2 = [OSCall.munmapCall d.m_addr d.m_size] := by
  refine ⟨?_, ?_, rfl, ?_⟩
  · simp [MemoryMapping.unmap, h]
  · simp [MemoryMapping.destruct, MemoryMapping.unmap, h]
  · simp [MemoryMapping.moveAssign, MemoryMapping.unmap, h]

/-- Witness for the amended C7 theorem at concrete mappings. -/
theorem unmap_error_propagation_witness :
    (MemoryMapping.unmap
        { m_size := 100, m_offset := 0, m_fd := 7,
          m_mapping_mode := .readonly, m_addr := 16384 } false).1 =
      .error (.system_error "munmap failed") :=
  (unmap_error_propagation
      { m_size := 100, m_offset := 0, m_fd := 7,
        m_mapping_mode := .readonly, m_addr := 16384 }
      { m_size := 1, m_offset := 0, m_fd := -1,
        m_mapping_mode := .write_private, m_addr := 4096 } (by decide)).1

/-- C8: evaluating the code at the failing input.  Constructing a
TypedMemoryMapping with element count 0 and sizeof(T) == 3 (pagesize 4096)
succeeds — check_size turns the 0-byte request into a pagesize-byte request —
but leaves a byte size of 4096, which is not a multiple of 3: the invariant
asserted by TypedMemoryMapping::size() is violated and its assert fails. -/
theorem typed_count_zero_breaks_invariant :
    (TypedMemoryMapping.constructAnon 3 4096 0 1024).1 =
      .ok ⟨3, { m_size := 4096, m_offset := 0, m_fd := -1,
                m_mapping_mode := .write_private, m_addr := 1024 }⟩ ∧
    ¬ TypedMemoryMapping.sizeInvariant
        ⟨3, { m_size := 4096, m_offset := 0, m_fd := -1,
              m_mapping_mode := .write_private, m_addr := 1024 }⟩ ∧
    TypedMemoryMapping.size
        ⟨3, { m_size := 4096, m_offset := 0, m_fd := -1,
              m_mapping_mode := .write_private, m_addr := 1024 }⟩ =
      .error .assertion_failure := by
  refine ⟨rfl, ?_, rfl⟩
  unfold TypedMemoryMapping.sizeInvariant
  decide

/-- C9: on a platform without in-place growth (isLinux = false), resize on an
anonymous region (fd == -1) fails its assert without making any OS call, for
every requested size and every OS oracle; moreover the anonymous
specializations do not declare a usable resize there at all (the member is
deleted), so the rejection is enforced at compile time. -/
theorem anon_resize_rejected_no_os_call (m : MemoryMapping) (n fileSize : Nat)
    (mapRet : Int) (munmapOk : Bool) (hanon : m.m_fd = -1) :
    MemoryMapping.resize false m n fileSize mapRet munmapOk =
      (.error .assertion_failure, []) ∧
    anonymousResizeDeclared false = false := by
  refine ⟨?_, rfl⟩
  unfold MemoryMapping.resize
  by_cases hn : n = 0
  · simp [hn]
  · simp [hn, hanon]

/-- Witness for the C9 theorem at a concrete anonymous mapping. -/
theorem anon_resize_rejected_no_os_call_witness :
    MemoryMapping.resize false
        { m_size := 4096, m_offset := 0, m_fd := -1,
          m_mapping_mode := .write_private, m_addr := 4096 } 8192 0 8192 true =
      (.error .assertion_failure, []) :=
  (anon_resize_rejected_no_os_call
      { m_size := 4096, m_offset := 0, m_fd := -1,
        m_mapping_mode := .write_private, m_addr := 4096 } 8192 0 8192 true
      (by decide)).1

/-- C10: an invalid MemoryMapping (moved-from or unmapped) has
m_addr == MAP_FAILED, so get_addr() returns MAP_FAILED — the POSIX (void*)-1
marker — which is not the null pointer; hence comparing the returned pointer
against null cannot detect invalidity, while the boolean conversion reports
false. -/
theorem invalid_get_addr (m : MemoryMapping) (h : m.is_valid = false) :
    m.get_addr = MAP_FAILED ∧ m.get_addr ≠ nullptr ∧ m.toBool = false := by
  have haddr : m.m_addr = MAP_FAILED := by
    simpa [MemoryMapping.is_valid] using h
  refine ⟨haddr, ?_, h⟩
  rw [MemoryMapping.get_addr, haddr]
  decide

/-- Witness for the C10 theorem at a concrete moved-from mapping. -/
theorem invalid_get_addr_witness :
    MemoryMapping.get_addr
        { m_size := 4096, m_offset := 0, m_fd := -1,
          m_mapping_mode := .write_private, m_addr := -1 } = MAP_FAILED :=
  (invalid_get_addr
      { m_size := 4096, m_offset := 0, m_fd := -1,
        m_mapping_mode := .write_private, m_addr := -1 } (by decide)).1

end Osmium
